import Mathlib

/-!
Verification development for the `zfs_space_visualizer` repository.

This file shallowly embeds the data-acquisition and state-coordination core of
the program (src/zfs.rs, src/data.rs, src/state.rs, src/navigation.rs,
src/sorting.rs) into Lean and proves or refutes the frozen claims about it.

Modelling conventions:
- Rust `u64` values are modelled as `Nat` together with the explicit bound
  `2 ^ 64` where the source can overflow (numeric parsing).
- Raw text handed to the parsers is modelled at the character-list level
  (`List Char`), with explicit structural-recursion implementations of the
  string operations the source uses (`split('\t')`, `trim().is_empty()`,
  `str::lines`, `str::parse::<u64>()`), so every definition evaluates by
  kernel reduction.
- The external `zpool` / `zfs` process is modelled by a `CmdOutcome` value
  (spawn error / exit status plus stdout), and the asynchronous fetches by
  oracle functions passed explicitly to each operation.
- A Rust runtime abort (out-of-bounds slice index) is a distinguished outcome
  (`LineResult.fatal` / `FetchResult.fatal`), kept separate from `Result::Err`.
- The `HashMap` snapshot cache is modelled as an association list where an
  insert replaces any previous binding for the key; mutex acquisition is
  modelled as always succeeding (the process never poisons the lock).
- `std::time::Instant` is modelled as a `Nat` count of elapsed seconds,
  passed in as a `now` parameter.
-/

namespace ZfsViz

/-! ## Character-level string primitives used by the parsers -/

/-- `str::split('\t')`-style splitting of a character list at a separator.
Splitting the empty string yields one empty field, as in Rust. -/
def splitOnChar (sep : Char) : List Char → List (List Char)
  | [] => [[]]
  | c :: cs =>
    let rest := splitOnChar sep cs
    if c = sep then [] :: rest
    else
      match rest with
      | [] => [[c]]
      | f :: fs => (c :: f) :: fs

/-- Whitespace test backing `str::trim` in the model (ASCII whitespace; the
source's Unicode `White_Space` set is wider but the extra code points never
appear in `zpool`/`zfs` tabular output). -/
def isWhitespaceChar (c : Char) : Bool :=
  c = ' ' || c = '\t' || c = '\n' || c = '\r'

/-- `line.trim().is_empty()` from the source: true iff every character of the
line is whitespace. -/
def trimIsEmpty (cs : List Char) : Bool :=
  cs.all isWhitespaceChar

/-- Value of one ASCII digit, if the character is one. -/
def digitVal (c : Char) : Option Nat :=
  let v := c.toNat
  if 48 ≤ v ∧ v ≤ 57 then some (v - 48) else none

/-- Accumulate decimal digits; `none` when a non-digit is hit. -/
def digitsToNat (acc : Nat) : List Char → Option Nat
  | [] => some acc
  | c :: cs =>
    match digitVal c with
    | some d => digitsToNat (acc * 10 + d) cs
    | none => none

/-- `s.parse::<u64>().unwrap_or(0)` from src/zfs.rs: an optional leading `+`,
then one or more ASCII digits; any malformed input or overflow past `u64::MAX`
yields the default `0`. -/
def parseU64OrZero (cs : List Char) : Nat :=
  let body := match cs with
    | '+' :: rest => rest
    | other => other
  match body with
  | [] => 0
  | _ =>
    match digitsToNat 0 body with
    | some n => if n < 2 ^ 64 then n else 0
    | none => 0

/-- Strip one trailing `'\r'`, as `str::lines` does on each yielded line. -/
def stripTrailingCR (cs : List Char) : List Char :=
  match cs.getLast? with
  | some '\r' => cs.dropLast
  | _ => cs

/-- `str::lines` from the source: split stdout at `'\n'`, strip a trailing
`'\r'` from every line that was terminated by `'\n'`, and do not yield a final
empty line for a trailing newline. -/
def rustLines (cs : List Char) : List (List Char) :=
  let parts := splitOnChar '\n' cs
  let body := parts.dropLast.map stripTrailingCR
  match parts.getLast? with
  | some [] => body
  | some l => body ++ [l]
  | none => body

/-! ## Data model (src/zfs.rs) -/

/-- `struct Pool` from src/zfs.rs. -/
structure Pool where
  name : String
  size : Nat
  allocated : Nat
  free : Nat
  health : String
deriving Repr, DecidableEq

/-- `struct Dataset` from src/zfs.rs. -/
structure Dataset where
  name : String
  used : Nat
  available : Nat
  referenced : Nat
  snapshot_used : Nat
deriving Repr, DecidableEq

/-- `struct Snapshot` from src/zfs.rs. -/
structure Snapshot where
  name : String
  used : Nat
  referenced : Nat
  creation : String
deriving Repr, DecidableEq

/-! ## Entity parser (the per-line loops of src/zfs.rs) -/

/-- Outcome of handling one line of tabular output: a typed record, a silent
skip, or an aborting Rust `panic` (out-of-bounds index), called `fatal` here. -/
inductive LineResult (α : Type) where
  | record : α → LineResult α
  | skip : LineResult α
  | fatal : LineResult α
deriving Repr, DecidableEq

/-- One iteration of the pool-listing loop in `get_pools` (src/zfs.rs lines
41-56): skip blank lines, split on tabs, require at least 7 fields, then read
fields 0-3 and field 9.  Reading field 9 under a 7-field guard is an
out-of-bounds panic whenever the line has 7, 8 or 9 fields. -/
def parsePoolLine (line : List Char) : LineResult Pool :=
  if trimIsEmpty line then .skip
  else
    let fields := splitOnChar '\t' line
    if 7 ≤ fields.length then
      if 9 < fields.length then
        .record
          { name := String.mk (fields.getD 0 [])
            size := parseU64OrZero (fields.getD 1 [])
            allocated := parseU64OrZero (fields.getD 2 [])
            free := parseU64OrZero (fields.getD 3 [])
            health := String.mk (fields.getD 9 []) }
      else .fatal
    else .skip

/-- One iteration of the dataset-listing loop in `get_datasets` (src/zfs.rs
lines 104-119): skip blank lines, require at least 5 fields, read fields 0-4. -/
def parseDatasetLine (line : List Char) : LineResult Dataset :=
  if trimIsEmpty line then .skip
  else
    let fields := splitOnChar '\t' line
    if 5 ≤ fields.length then
      .record
        { name := String.mk (fields.getD 0 [])
          used := parseU64OrZero (fields.getD 1 [])
          available := parseU64OrZero (fields.getD 2 [])
          referenced := parseU64OrZero (fields.getD 3 [])
          snapshot_used := parseU64OrZero (fields.getD 4 []) }
    else .skip

/-- One iteration of the snapshot-listing loop in `get_snapshots` (src/zfs.rs
lines 202-216): skip blank lines, require at least 4 fields, read fields 0-3. -/
def parseSnapshotLine (line : List Char) : LineResult Snapshot :=
  if trimIsEmpty line then .skip
  else
    let fields := splitOnChar '\t' line
    if 4 ≤ fields.length then
      .record
        { name := String.mk (fields.getD 0 [])
          used := parseU64OrZero (fields.getD 1 [])
          referenced := parseU64OrZero (fields.getD 2 [])
          creation := String.mk (fields.getD 3 []) }
    else .skip

/-- Run a per-line parser over a whole listing; `none` models the whole batch
aborting because one line panicked. -/
def parseLinesWith {α : Type} (p : List Char → LineResult α) :
    List (List Char) → Option (List α)
  | [] => some []
  | l :: ls =>
    match p l with
    | .fatal => none
    | .skip => parseLinesWith p ls
    | .record a => (parseLinesWith p ls).map (a :: ·)

/-! ## External command invocation model (src/zfs.rs) -/

/-- Result of one `TokioCommand::output().await`:
`spawnErr` is `Err(_)` from the runtime (command could not be spawned);
`exited success stdout` is `Ok(output)` with `output.status.success()` and the
decoded stdout, where `none` stands for bytes that are not valid UTF-8. -/
inductive CmdOutcome where
  | spawnErr : CmdOutcome
  | exited : Bool → Option (List Char) → CmdOutcome
deriving Repr, DecidableEq

/-- `output.status.success()` failed or the spawn itself failed: the `_`
arm of the `match output` in each fetch function. -/
def CmdOutcome.isFailure : CmdOutcome → Bool
  | .spawnErr => true
  | .exited success _ => !success

/-- Result of one fetch function: `ok` is `Ok(..)`, `err` is the `Err`
propagated by `String::from_utf8(output.stdout)?`, and `fatal` is a parser
panic aborting the call (no `Result` is produced at all). -/
inductive FetchResult (α : Type) where
  | ok : α → FetchResult α
  | err : FetchResult α
  | fatal : FetchResult α
deriving Repr, DecidableEq

/-- `get_mock_pools` from src/zfs.rs lines 67-91. -/
def get_mock_pools : List Pool :=
  [ { name := "tank", size := 10 * 1024 * 1024 * 1024 * 1024
      allocated := 3 * 1024 * 1024 * 1024 * 1024
      free := 7 * 1024 * 1024 * 1024 * 1024, health := "ONLINE" },
    { name := "backup", size := 5 * 1024 * 1024 * 1024 * 1024
      allocated := 2 * 1024 * 1024 * 1024 * 1024
      free := 3 * 1024 * 1024 * 1024 * 1024, health := "ONLINE" },
    { name := "archive", size := 20 * 1024 * 1024 * 1024 * 1024
      allocated := 15 * 1024 * 1024 * 1024 * 1024
      free := 5 * 1024 * 1024 * 1024 * 1024, health := "DEGRADED" } ]

/-- `get_mock_datasets` from src/zfs.rs lines 130-189 (match on the pool
name; any other name yields the empty list). -/
def get_mock_datasets (pool_name : String) : List Dataset :=
  if pool_name = "tank" then
    [ { name := "tank", used := 3 * 1024 * 1024 * 1024 * 1024
        available := 7 * 1024 * 1024 * 1024 * 1024
        referenced := 1024 * 1024 * 1024
        snapshot_used := 500 * 1024 * 1024 * 1024 },
      { name := "tank/home", used := 800 * 1024 * 1024 * 1024
        available := 7 * 1024 * 1024 * 1024 * 1024
        referenced := 600 * 1024 * 1024 * 1024
        snapshot_used := 200 * 1024 * 1024 * 1024 },
      { name := "tank/data", used := 1200 * 1024 * 1024 * 1024
        available := 7 * 1024 * 1024 * 1024 * 1024
        referenced := 1000 * 1024 * 1024 * 1024
        snapshot_used := 200 * 1024 * 1024 * 1024 },
      { name := "tank/vm", used := 500 * 1024 * 1024 * 1024
        available := 7 * 1024 * 1024 * 1024 * 1024
        referenced := 450 * 1024 * 1024 * 1024
        snapshot_used := 50 * 1024 * 1024 * 1024 } ]
  else if pool_name = "backup" then
    [ { name := "backup", used := 2 * 1024 * 1024 * 1024 * 1024
        available := 3 * 1024 * 1024 * 1024 * 1024
        referenced := 512 * 1024 * 1024
        snapshot_used := 200 * 1024 * 1024 * 1024 },
      { name := "backup/daily", used := 1000 * 1024 * 1024 * 1024
        available := 3 * 1024 * 1024 * 1024 * 1024
        referenced := 800 * 1024 * 1024 * 1024
        snapshot_used := 200 * 1024 * 1024 * 1024 } ]
  else if pool_name = "archive" then
    [ { name := "archive", used := 15 * 1024 * 1024 * 1024 * 1024
        available := 5 * 1024 * 1024 * 1024 * 1024
        referenced := 12 * 1024 * 1024 * 1024 * 1024
        snapshot_used := 3 * 1024 * 1024 * 1024 * 1024 } ]
  else []

/-- `get_mock_snapshots` from src/zfs.rs lines 227-319 (match on the dataset
name; any other name yields the empty list). -/
def get_mock_snapshots (dataset_name : String) : List Snapshot :=
  if dataset_name = "tank/home" then
    [ { name := "tank/home@daily-2024-01-15", used := 50 * 1024 * 1024 * 1024
        referenced := 600 * 1024 * 1024 * 1024, creation := "Mon Jan 15 06:00 2024" },
      { name := "tank/home@daily-2024-01-14", used := 30 * 1024 * 1024 * 1024
        referenced := 580 * 1024 * 1024 * 1024, creation := "Sun Jan 14 06:00 2024" },
      { name := "tank/home@weekly-2024-01-08", used := 80 * 1024 * 1024 * 1024
        referenced := 520 * 1024 * 1024 * 1024, creation := "Mon Jan  8 06:00 2024" },
      { name := "tank/home@monthly-2024-01-01", used := 40 * 1024 * 1024 * 1024
        referenced := 450 * 1024 * 1024 * 1024, creation := "Mon Jan  1 06:00 2024" } ]
  else if dataset_name = "tank/data" then
    [ { name := "tank/data@backup-2024-01-15", used := 100 * 1024 * 1024 * 1024
        referenced := 1000 * 1024 * 1024 * 1024, creation := "Mon Jan 15 12:00 2024" },
      { name := "tank/data@backup-2024-01-10", used := 100 * 1024 * 1024 * 1024
        referenced := 950 * 1024 * 1024 * 1024, creation := "Wed Jan 10 12:00 2024" } ]
  else if dataset_name = "tank/vm" then
    [ { name := "tank/vm@pre-update", used := 25 * 1024 * 1024 * 1024
        referenced := 400 * 1024 * 1024 * 1024, creation := "Fri Jan 12 14:30 2024" },
      { name := "tank/vm@clean-install", used := 25 * 1024 * 1024 * 1024
        referenced := 350 * 1024 * 1024 * 1024, creation := "Mon Jan  1 10:00 2024" } ]
  else if dataset_name = "backup/daily" then
    [ { name := "backup/daily@2024-01-15", used := 50 * 1024 * 1024 * 1024
        referenced := 800 * 1024 * 1024 * 1024, creation := "Mon Jan 15 23:00 2024" },
      { name := "backup/daily@2024-01-14", used := 45 * 1024 * 1024 * 1024
        referenced := 780 * 1024 * 1024 * 1024, creation := "Sun Jan 14 23:00 2024" },
      { name := "backup/daily@2024-01-13", used := 40 * 1024 * 1024 * 1024
        referenced := 760 * 1024 * 1024 * 1024, creation := "Sat Jan 13 23:00 2024" } ]
  else if dataset_name = "archive" then
    [ { name := "archive@quarterly-2024-q1", used := 1500 * 1024 * 1024 * 1024
        referenced := 10 * 1024 * 1024 * 1024 * 1024, creation := "Mon Jan  1 00:00 2024" },
      { name := "archive@quarterly-2023-q4", used := 1500 * 1024 * 1024 * 1024
        referenced := 9 * 1024 * 1024 * 1024 * 1024, creation := "Fri Oct  1 00:00 2023" } ]
  else []

/-- `get_pools` from src/zfs.rs lines 30-65, as a function of the single
command invocation's outcome: on a successful exit, decode stdout (the `?` on
`String::from_utf8` is the only `Err` path) and run the pool-line parser over
every line; on a spawn error or non-zero exit, return the mock pools. -/
def get_pools (o : CmdOutcome) : FetchResult (List Pool) :=
  match o with
  | .exited true (some stdout) =>
    match parseLinesWith parsePoolLine (rustLines stdout) with
    | some pools => .ok pools
    | none => .fatal
  | .exited true none => .err
  | _ => .ok get_mock_pools

/-- `get_datasets` from src/zfs.rs lines 93-128, same shape as `get_pools`
but parsing dataset lines and falling back to `get_mock_datasets pool_name`. -/
def get_datasets (pool_name : String) (o : CmdOutcome) : FetchResult (List Dataset) :=
  match o with
  | .exited true (some stdout) =>
    match parseLinesWith parseDatasetLine (rustLines stdout) with
    | some datasets => .ok datasets
    | none => .fatal
  | .exited true none => .err
  | _ => .ok (get_mock_datasets pool_name)

/-- `get_snapshots` from src/zfs.rs lines 191-225, same shape as `get_pools`
but parsing snapshot lines and falling back to `get_mock_snapshots`. -/
def get_snapshots (dataset_name : String) (o : CmdOutcome) : FetchResult (List Snapshot) :=
  match o with
  | .exited true (some stdout) =>
    match parseLinesWith parseSnapshotLine (rustLines stdout) with
    | some snapshots => .ok snapshots
    | none => .fatal
  | .exited true none => .err
  | _ => .ok (get_mock_snapshots dataset_name)

/-! ## Cache store and Data Manager (src/data.rs)

Foreground fetches are modelled by an oracle `fetch : String → List Snapshot`
giving the snapshot list the live `get_snapshots` call would return for a
dataset name.  (`get_snapshots` returns `Ok` even when the external tool
fails — it falls back to mock data — so the only non-`Ok` foreground path is
the invalid-UTF-8 `Err`, which aborts the call before any cache write and is
outside this state model.) -/

/-- The `HashMap<String, Vec<Snapshot>>` snapshot cache, as an association
list in which an insert replaces any previous binding of the key. -/
def SnapshotCache : Type := List (String × List Snapshot)

/-- `HashMap::insert`: bind `k` to `v`, dropping any previous binding. -/
def cacheInsert (k : String) (v : List Snapshot) (c : SnapshotCache) : SnapshotCache :=
  (k, v) :: (c.filter fun e => e.1 ≠ k)

/-- `HashMap::get(..).cloned()` behind the mutex: the current binding of `k`,
if any (`lock()` is modelled as always succeeding; a poisoned lock would read
as a miss, src/data.rs lines 141-147). -/
def cacheLookup (k : String) (c : SnapshotCache) : Option (List Snapshot) :=
  match c.find? fun e => e.1 = k with
  | some e => some e.2
  | none => none

/-- The mutable fields of `struct DataManager` (src/data.rs lines 11-20) that
the foreground operations touch.  The atomics of the prefetch engine are
modelled separately below. -/
structure DataManager where
  pools : List Pool
  datasets : List Dataset
  snapshots : List Snapshot
  snapshot_cache : SnapshotCache

/-- `DataManager::new` (src/data.rs lines 23-34), state part. -/
def DataManager.new : DataManager :=
  { pools := [], datasets := [], snapshots := [], snapshot_cache := [] }

/-- `get_cached_snapshots` from src/data.rs lines 141-147. -/
def get_cached_snapshots (dm : DataManager) (dataset_name : String) :
    Option (List Snapshot) :=
  cacheLookup dataset_name dm.snapshot_cache

/-- `cache_snapshots` from src/data.rs lines 149-153: write the manager's
current snapshot list into the cache under the given key. -/
def cache_snapshots (dm : DataManager) (dataset_name : String) : DataManager :=
  { dm with snapshot_cache := cacheInsert dataset_name dm.snapshots dm.snapshot_cache }

/-- Result of an instrumented Data Manager operation: the new state plus how
many live `get_snapshots` fetches and how many cache writes the call made. -/
structure LoadOutcome where
  dm : DataManager
  fetches : Nat
  cacheWrites : Nat

/-- `load_snapshots` from src/data.rs lines 123-132: take the cached list
(defaulting to empty); if the resulting snapshot list is empty, perform a live
fetch and write it through to the cache. -/
def load_snapshots (fetch : String → List Snapshot) (dm : DataManager)
    (dataset_name : String) : LoadOutcome :=
  let dm1 := { dm with snapshots := (get_cached_snapshots dm dataset_name).getD [] }
  if dm1.snapshots.isEmpty then
    let dm2 := { dm1 with snapshots := fetch dataset_name }
    { dm := cache_snapshots dm2 dataset_name, fetches := 1, cacheWrites := 1 }
  else
    { dm := dm1, fetches := 0, cacheWrites := 0 }

/-- `reload_snapshots` from src/data.rs lines 134-139: always perform the live
fetch, then write the result through to the cache. -/
def reload_snapshots (fetch : String → List Snapshot) (dm : DataManager)
    (dataset_name : String) : LoadOutcome :=
  let dm2 := { dm with snapshots := fetch dataset_name }
  { dm := cache_snapshots dm2 dataset_name, fetches := 1, cacheWrites := 1 }

/-! ## Prefetch engine (src/data.rs lines 45-116)

Each spawned task performs one snapshot fetch, writes the cache on success,
and increments the shared `prefetch_completed` atomic exactly once on exit,
on the success and on the failure path alike.  Because every task contributes
exactly one commuting increment, the counter value after any set of `k`
resolved tasks is `k` regardless of interleaving; the model processes the
tasks in their resolution order. -/

/-- Outcome of one per-dataset prefetch task's `get_snapshots` call. -/
inductive FetchOutcome where
  | success : List Snapshot → FetchOutcome
  | failure : FetchOutcome

/-- Body of one prefetch task (src/data.rs lines 86-106): on success insert
the snapshots into the cache, on failure leave it alone; either way increment
the completed counter by one. -/
def prefetchTask (name : String) (o : FetchOutcome)
    (st : SnapshotCache × Nat) : SnapshotCache × Nat :=
  match o with
  | .success snaps => (cacheInsert name snaps st.1, st.2 + 1)
  | .failure => (st.1, st.2 + 1)

/-- Cache and completed-counter state after the first `k` resolved tasks of a
prefetch run over `work` (one `(dataset name, outcome)` pair per dispatched
task), starting from `prefetch_completed = 0` (src/data.rs line 71). -/
def prefetchAfter (work : List (String × FetchOutcome)) (cache : SnapshotCache)
    (k : Nat) : SnapshotCache × Nat :=
  (work.take k).foldl (fun st t => prefetchTask t.1 t.2 st) (cache, 0)

/-- `prefetch_total.store(all_datasets.len())` from src/data.rs line 70. -/
def prefetchTotal (work : List (String × FetchOutcome)) : Nat :=
  work.length

/-! ## Sort engine (src/sorting.rs) -/

/-- `enum DatasetSortOrder` from src/sorting.rs lines 3-13. -/
inductive DatasetSortOrder where
  | totalSizeDesc
  | totalSizeAsc
  | datasetSizeDesc
  | datasetSizeAsc
  | snapshotSizeDesc
  | snapshotSizeAsc
  | nameDesc
  | nameAsc
deriving Repr, DecidableEq

/-- The `VALUES` table of `DatasetSortOrder` (src/sorting.rs lines 16-19). -/
def DatasetSortOrder.values : List DatasetSortOrder :=
  [.totalSizeDesc, .totalSizeAsc, .datasetSizeDesc, .datasetSizeAsc,
   .snapshotSizeDesc, .snapshotSizeAsc, .nameDesc, .nameAsc]

/-- The `current_idx` match inside `DatasetSortOrder::next`. -/
def DatasetSortOrder.index : DatasetSortOrder → Nat
  | .totalSizeDesc => 0
  | .totalSizeAsc => 1
  | .datasetSizeDesc => 2
  | .datasetSizeAsc => 3
  | .snapshotSizeDesc => 4
  | .snapshotSizeAsc => 5
  | .nameDesc => 6
  | .nameAsc => 7

/-- `DatasetSortOrder::next` from src/sorting.rs lines 21-33:
`VALUES[(current_idx + 1) % VALUES.len()]`. -/
def DatasetSortOrder.next (s : DatasetSortOrder) : DatasetSortOrder :=
  DatasetSortOrder.values.getD ((s.index + 1) % DatasetSortOrder.values.length) s

/-- `enum SnapshotSortOrder` from src/sorting.rs lines 42-50. -/
inductive SnapshotSortOrder where
  | usedDesc
  | usedAsc
  | referencedDesc
  | referencedAsc
  | nameDesc
  | nameAsc
deriving Repr, DecidableEq

/-- The `VALUES` table of `SnapshotSortOrder` (src/sorting.rs lines 53-56). -/
def SnapshotSortOrder.values : List SnapshotSortOrder :=
  [.usedDesc, .usedAsc, .referencedDesc, .referencedAsc, .nameDesc, .nameAsc]

/-- The `current_idx` match inside `SnapshotSortOrder::next`. -/
def SnapshotSortOrder.index : SnapshotSortOrder → Nat
  | .usedDesc => 0
  | .usedAsc => 1
  | .referencedDesc => 2
  | .referencedAsc => 3
  | .nameDesc => 4
  | .nameAsc => 5

/-- `SnapshotSortOrder::next` from src/sorting.rs lines 58-68. -/
def SnapshotSortOrder.next (s : SnapshotSortOrder) : SnapshotSortOrder :=
  SnapshotSortOrder.values.getD ((s.index + 1) % SnapshotSortOrder.values.length) s

/-- Lexicographic order on character lists, the order `Ord for String` gives
in Rust (UTF-8 byte order coincides with code-point order). -/
def charListLe : List Char → List Char → Bool
  | [], _ => true
  | _ :: _, [] => false
  | a :: as, b :: bs =>
    if a.toNat < b.toNat then true
    else if b.toNat < a.toNat then false
    else charListLe as bs

/-- `a <= b` on Rust `String`s. -/
def stringLe (a b : String) : Bool :=
  charListLe a.data b.data

/-- `sort_by` with a comparator `f` is a stable ascending sort with respect
to `f`; it is modelled by the stable `List.mergeSort` whose `le a b` is
`f a b != Greater`. `SortManager::sort_datasets` from src/sorting.rs lines
89-100. -/
def sort_datasets (o : DatasetSortOrder) (datasets : List Dataset) : List Dataset :=
  match o with
  | .totalSizeDesc => datasets.mergeSort fun a b =>
      b.referenced + b.snapshot_used ≤ a.referenced + a.snapshot_used
  | .totalSizeAsc => datasets.mergeSort fun a b =>
      a.referenced + a.snapshot_used ≤ b.referenced + b.snapshot_used
  | .datasetSizeDesc => datasets.mergeSort fun a b => b.referenced ≤ a.referenced
  | .datasetSizeAsc => datasets.mergeSort fun a b => a.referenced ≤ b.referenced
  | .snapshotSizeDesc => datasets.mergeSort fun a b => b.snapshot_used ≤ a.snapshot_used
  | .snapshotSizeAsc => datasets.mergeSort fun a b => a.snapshot_used ≤ b.snapshot_used
  | .nameDesc => datasets.mergeSort fun a b => stringLe b.name a.name
  | .nameAsc => datasets.mergeSort fun a b => stringLe a.name b.name

/-- `SortManager::sort_snapshots` from src/sorting.rs lines 102-111. -/
def sort_snapshots (o : SnapshotSortOrder) (snapshots : List Snapshot) : List Snapshot :=
  match o with
  | .usedDesc => snapshots.mergeSort fun a b => b.used ≤ a.used
  | .usedAsc => snapshots.mergeSort fun a b => a.used ≤ b.used
  | .referencedDesc => snapshots.mergeSort fun a b => b.referenced ≤ a.referenced
  | .referencedAsc => snapshots.mergeSort fun a b => a.referenced ≤ b.referenced
  | .nameDesc => snapshots.mergeSort fun a b => stringLe b.name a.name
  | .nameAsc => snapshots.mergeSort fun a b => stringLe a.name b.name

/-- `struct SortManager` from src/sorting.rs lines 77-81. -/
structure SortManager where
  dataset_sort_order : DatasetSortOrder
  snapshot_sort_order : SnapshotSortOrder

/-- `SortManager::new` via `Default`: both orders start at the first key. -/
def SortManager.new : SortManager :=
  { dataset_sort_order := .totalSizeDesc, snapshot_sort_order := .usedDesc }

/-- `toggle_dataset_sort` from src/sorting.rs lines 113-115. -/
def toggle_dataset_sort (m : SortManager) : SortManager :=
  { m with dataset_sort_order := m.dataset_sort_order.next }

/-- `toggle_snapshot_sort` from src/sorting.rs lines 117-119. -/
def toggle_snapshot_sort (m : SortManager) : SortManager :=
  { m with snapshot_sort_order := m.snapshot_sort_order.next }

/-! ## Application state (src/state.rs) -/

/-- `enum AppView` from src/state.rs lines 8-14. -/
inductive AppView where
  | poolList
  | datasetView : String → AppView
  | snapshotDetail : String → String → AppView
  | help
deriving Repr, DecidableEq

/-- `struct AppState` from src/state.rs lines 16-45, restricted to the fields
the claims touch.  The theme manager and the cached status-bar text/color are
render-only and omitted; `config_readonly` mirrors the `state.config.readonly`
flag consulted by the key dispatcher; `Instant` timestamps are second counts. -/
structure AppState where
  should_quit : Bool
  current_view : AppView
  previous_view : Option AppView
  selected_pool_index : Nat
  selected_dataset_index : Nat
  selected_snapshot_index : Nat
  dataset_scroll_offset : Nat
  snapshot_scroll_offset : Nat
  data_manager : DataManager
  sort_manager : SortManager
  delete_confirmation_pending : Bool
  delete_confirmation_timestamp : Option Nat
  error_message : Option String
  config_readonly : Bool

/-- `AppState::default` (src/state.rs lines 47-68), with the read-only flag
as the startup parameter it is in the real program's configuration. -/
def AppState.initial (readonly : Bool) : AppState :=
  { should_quit := false
    current_view := .poolList
    previous_view := none
    selected_pool_index := 0
    selected_dataset_index := 0
    selected_snapshot_index := 0
    dataset_scroll_offset := 0
    snapshot_scroll_offset := 0
    data_manager := DataManager.new
    sort_manager := SortManager.new
    delete_confirmation_pending := false
    delete_confirmation_timestamp := none
    error_message := none
    config_readonly := readonly }

/-- `DELETE_CONFIRMATION_TIMEOUT_SECS` from src/navigation.rs line 7. -/
def DELETE_CONFIRMATION_TIMEOUT_SECS : Nat := 3

/-- `reset_dataset_selection` from src/state.rs lines 137-140. -/
def reset_dataset_selection (s : AppState) : AppState :=
  { s with selected_dataset_index := 0, dataset_scroll_offset := 0 }

/-- `reset_snapshot_selection` from src/state.rs lines 142-145. -/
def reset_snapshot_selection (s : AppState) : AppState :=
  { s with selected_snapshot_index := 0, snapshot_scroll_offset := 0 }

/-- `start_delete_confirmation` from src/state.rs lines 147-151 (the
status-text refresh is render-only and omitted). -/
def start_delete_confirmation (now : Nat) (s : AppState) : AppState :=
  { s with delete_confirmation_pending := true
           delete_confirmation_timestamp := some now }

/-- `clear_delete_confirmation` from src/state.rs lines 153-157. -/
def clear_delete_confirmation (s : AppState) : AppState :=
  { s with delete_confirmation_pending := false
           delete_confirmation_timestamp := none }

/-- `is_delete_confirmation_expired` from src/state.rs lines 159-165:
`timestamp.elapsed().as_secs() >= DELETE_CONFIRMATION_TIMEOUT_SECS`, false
when no confirmation is pending. -/
def is_delete_confirmation_expired (now : Nat) (s : AppState) : Bool :=
  match s.delete_confirmation_timestamp with
  | some t => DELETE_CONFIRMATION_TIMEOUT_SECS ≤ now - t
  | none => false

/-- `set_error` from src/state.rs lines 167-170. -/
def set_error (message : String) (s : AppState) : AppState :=
  { s with error_message := some message }

/-- `clear_error` from src/state.rs lines 172-175. -/
def clear_error (s : AppState) : AppState :=
  { s with error_message := none }

/-- `update_scroll` from src/state.rs lines 87-135: in the dataset and
snapshot views, recompute that view's scroll offset from the visible height,
the selected index and the collection length; other views are untouched. -/
def update_scroll (visible_height : Nat) (s : AppState) : AppState :=
  match s.current_view with
  | .datasetView _ =>
    let total_items := s.data_manager.datasets.length
    if total_items ≤ visible_height then
      { s with dataset_scroll_offset := 0 }
    else
      let max_scroll := total_items - visible_height
      let offset :=
        if s.selected_dataset_index < s.dataset_scroll_offset then
          s.selected_dataset_index
        else if s.selected_dataset_index ≥ s.dataset_scroll_offset + visible_height then
          (s.selected_dataset_index + 1) - visible_height
        else s.dataset_scroll_offset
      { s with dataset_scroll_offset := min offset max_scroll }
  | .snapshotDetail _ _ =>
    let total_items := s.data_manager.snapshots.length
    if total_items ≤ visible_height then
      { s with snapshot_scroll_offset := 0 }
    else
      let max_scroll := total_items - visible_height
      let offset :=
        if s.selected_snapshot_index < s.snapshot_scroll_offset then
          s.selected_snapshot_index
        else if s.selected_snapshot_index ≥ s.snapshot_scroll_offset + visible_height then
          (s.selected_snapshot_index + 1) - visible_height
        else s.snapshot_scroll_offset
      { s with snapshot_scroll_offset := min offset max_scroll }
  | _ => s

/-! ## Navigation state machine (src/navigation.rs)

The asynchronous calls into src/zfs.rs are supplied as oracles:
`fetchDatasets` is the dataset list a live `get_datasets` returns for a pool,
`fetchSnaps` the snapshot list a live `get_snapshots` returns for a dataset,
and `deleteResult name` is `none` when `delete_snapshot(name)` returns `Ok`
and `some msg` when it returns an error with text `msg`.  Operations that can
invoke `delete_snapshot` additionally return how many times they invoked it. -/

/-- The key events the dispatcher distinguishes (`KeyCode` plus the one
CONTROL-modified combination the source tests for). -/
inductive Key where
  | char : Char → Key
  | ctrlC : Key
  | esc : Key
  | backspace : Key
  | left : Key
  | right : Key
  | up : Key
  | down : Key
  | enter : Key
  | pageUp : Key
  | pageDown : Key
deriving Repr, DecidableEq

/-- `PAGE_SIZE` from src/navigation.rs line 6. -/
def PAGE_SIZE : Nat := 10

/-- `Navigator::previous_item` from src/navigation.rs lines 56-63. -/
def previous_item (s : AppState) : AppState :=
  match s.current_view with
  | .poolList => { s with selected_pool_index := s.selected_pool_index - 1 }
  | .datasetView _ => { s with selected_dataset_index := s.selected_dataset_index - 1 }
  | .snapshotDetail _ _ =>
    { s with selected_snapshot_index := s.selected_snapshot_index - 1 }
  | .help => s

/-- `Navigator::next_item` from src/navigation.rs lines 65-78:
`(index + 1).min(len.saturating_sub(1))`. -/
def next_item (s : AppState) : AppState :=
  match s.current_view with
  | .poolList =>
    { s with selected_pool_index := (min (s.selected_pool_index + 1)
        (s.data_manager.pools.length - 1)) }
  | .datasetView _ =>
    { s with selected_dataset_index := (min (s.selected_dataset_index + 1)
        (s.data_manager.datasets.length - 1)) }
  | .snapshotDetail _ _ =>
    { s with selected_snapshot_index := (min (s.selected_snapshot_index + 1)
        (s.data_manager.snapshots.length - 1)) }
  | .help => s

/-- `Navigator::page_up` from src/navigation.rs lines 80-93. -/
def page_up (s : AppState) : AppState :=
  match s.current_view with
  | .poolList => { s with selected_pool_index := s.selected_pool_index - PAGE_SIZE }
  | .datasetView _ =>
    { s with selected_dataset_index := s.selected_dataset_index - PAGE_SIZE }
  | .snapshotDetail _ _ =>
    { s with selected_snapshot_index := s.selected_snapshot_index - PAGE_SIZE }
  | .help => s

/-- `Navigator::page_down` from src/navigation.rs lines 95-108. -/
def page_down (s : AppState) : AppState :=
  match s.current_view with
  | .poolList =>
    { s with selected_pool_index := (min (s.selected_pool_index + PAGE_SIZE)
        (s.data_manager.pools.length - 1)) }
  | .datasetView _ =>
    { s with selected_dataset_index := (min (s.selected_dataset_index + PAGE_SIZE)
        (s.data_manager.datasets.length - 1)) }
  | .snapshotDetail _ _ =>
    { s with selected_snapshot_index := (min (s.selected_snapshot_index + PAGE_SIZE)
        (s.data_manager.snapshots.length - 1)) }
  | .help => s

/-- `Navigator::go_forward` from src/navigation.rs lines 110-138: descend
into the selected pool or dataset (if any), load and sort the child
collection, and reset its selection and scroll. -/
def go_forward (fetchDatasets : String → List Dataset)
    (fetchSnaps : String → List Snapshot) (s : AppState) : AppState :=
  match s.current_view with
  | .poolList =>
    match s.data_manager.pools[s.selected_pool_index]? with
    | some pool =>
      let s := { s with current_view := .datasetView pool.name
                        selected_dataset_index := 0 }
      let dm := { s.data_manager with datasets := fetchDatasets pool.name }
      let dm := { dm with
        datasets := sort_datasets s.sort_manager.dataset_sort_order dm.datasets }
      reset_dataset_selection { s with data_manager := dm }
    | none => s
  | .datasetView pool_name =>
    match s.data_manager.datasets[s.selected_dataset_index]? with
    | some dataset =>
      let s := { s with current_view := .snapshotDetail pool_name dataset.name
                        selected_snapshot_index := 0 }
      let dm := (load_snapshots fetchSnaps s.data_manager dataset.name).dm
      let dm := { dm with
        snapshots := sort_snapshots s.sort_manager.snapshot_sort_order dm.snapshots }
      reset_snapshot_selection { s with data_manager := dm }
    | none => s
  | .snapshotDetail _ _ => s
  | .help => s

/-- `Navigator::go_back` from src/navigation.rs lines 140-160. -/
def go_back (s : AppState) : AppState :=
  match s.current_view with
  | .poolList => s
  | .datasetView _ => { s with current_view := .poolList }
  | .snapshotDetail pool_name _ => { s with current_view := .datasetView pool_name }
  | .help =>
    match s.previous_view with
    | some prev => { s with current_view := prev, previous_view := none }
    | none => { s with current_view := .poolList }

/-- `Navigator::show_help` from src/navigation.rs lines 162-166 (the theme
manager's cursor sync is render-only and omitted). -/
def show_help (s : AppState) : AppState :=
  { s with previous_view := some s.current_view, current_view := .help }

/-- `Navigator::toggle_sort` from src/navigation.rs lines 168-182: advance
the relevant sort key, re-sort the collection, reset its selection/scroll. -/
def toggle_sort (s : AppState) : AppState :=
  match s.current_view with
  | .datasetView _ =>
    let sm := toggle_dataset_sort s.sort_manager
    let dm := { s.data_manager with
      datasets := sort_datasets sm.dataset_sort_order s.data_manager.datasets }
    reset_dataset_selection { s with sort_manager := sm, data_manager := dm }
  | .snapshotDetail _ _ =>
    let sm := toggle_snapshot_sort s.sort_manager
    let dm := { s.data_manager with
      snapshots := sort_snapshots sm.snapshot_sort_order s.data_manager.snapshots }
    reset_snapshot_selection { s with sort_manager := sm, data_manager := dm }
  | _ => s

/-- `Navigator::handle_delete_key` from src/navigation.rs lines 184-234,
returning the state plus the number of `delete_snapshot` invocations the call
made.  On a successful deletion: `reload_snapshots` (live fetch plus cache
overwrite), re-sort, clamp the selection to the new length.  On a failed
deletion: surface the error message (the source additionally rewrites
permission/not-found/busy texts into friendlier wording). -/
def handle_delete_key (fetchSnaps : String → List Snapshot)
    (deleteResult : String → Option String) (now : Nat) (s : AppState) :
    AppState × Nat :=
  match s.current_view with
  | .snapshotDetail _pool_name dataset_name =>
    if s.data_manager.snapshots.isEmpty then (s, 0)
    else if !s.delete_confirmation_pending then
      (start_delete_confirmation now s, 0)
    else
      match s.data_manager.snapshots[s.selected_snapshot_index]? with
      | none => (clear_delete_confirmation s, 0)
      | some snapshot =>
        match deleteResult snapshot.name with
        | none =>
          let dm := (reload_snapshots fetchSnaps s.data_manager dataset_name).dm
          let dm := { dm with
            snapshots := sort_snapshots s.sort_manager.snapshot_sort_order dm.snapshots }
          let s := { s with data_manager := dm }
          let s :=
            if s.data_manager.snapshots.length ≤ s.selected_snapshot_index then
              { s with selected_snapshot_index := s.data_manager.snapshots.length - 1 }
            else s
          (clear_delete_confirmation s, 1)
        | some e => (clear_delete_confirmation (set_error e s), 1)
  | _ => (s, 0)

/-- The help-view arm of `Navigator::handle_key_event` (src/navigation.rs
lines 25-35): the theme-cycling keys only touch the omitted theme manager
and are identities here. -/
def handle_help_key (key : Key) (s : AppState) : AppState × Nat :=
  if key = .char 'q' then ({ s with should_quit := true }, 0)
  else if key = .ctrlC then ({ s with should_quit := true }, 0)
  else if key = .esc ∨ key = .backspace ∨ key = .left then (go_back s, 0)
  else (s, 0)

/-- The non-help arm of `Navigator::handle_key_event` (src/navigation.rs
lines 36-51): the arms of the Rust `match` in order; a `'d'` in read-only
mode fails the arm's guard and falls through to the catch-all. -/
def handle_main_key (fetchDatasets : String → List Dataset)
    (fetchSnaps : String → List Snapshot) (deleteResult : String → Option String)
    (now : Nat) (key : Key) (s : AppState) : AppState × Nat :=
  if key = .char 'q' then ({ s with should_quit := true }, 0)
  else if key = .ctrlC then ({ s with should_quit := true }, 0)
  else if key = .char 'h' then (show_help s, 0)
  else if key = .char 's' then (toggle_sort s, 0)
  else if key = .char 'd' ∧ !s.config_readonly then
    handle_delete_key fetchSnaps deleteResult now s
  else if key = .esc ∨ key = .backspace ∨ key = .left then (go_back s, 0)
  else if key = .enter ∨ key = .right then (go_forward fetchDatasets fetchSnaps s, 0)
  else if key = .up then (previous_item s, 0)
  else if key = .down then (next_item s, 0)
  else if key = .pageUp then (page_up s, 0)
  else if key = .pageDown then (page_down s, 0)
  else (s, 0)

/-- `Navigator::handle_key_event` from src/navigation.rs lines 12-54: a
pending error message swallows the keypress (cleared, nothing else
processed); otherwise dispatch on the current view. -/
def handle_key_event (fetchDatasets : String → List Dataset)
    (fetchSnaps : String → List Snapshot) (deleteResult : String → Option String)
    (now : Nat) (key : Key) (s : AppState) : AppState × Nat :=
  if s.error_message.isSome then (clear_error s, 0)
  else
    match s.current_view with
    | .help => handle_help_key key s
    | _ => handle_main_key fetchDatasets fetchSnaps deleteResult now key s

/-- Modelled from the spec: "any other input … disarms the pending flag
without side effect" (§4.6).  The key-dispatch wrapper that clears a pending
delete confirmation on every non-`'d'` key press belongs to the application
event loop, which is not among the sources under src (src/app.rs is an older
revision that predates delete confirmation); only its callees are.  It is
modelled as a disarming pre-step in front of the real
`Navigator::handle_key_event`. -/
def dispatch_key (fetchDatasets : String → List Dataset)
    (fetchSnaps : String → List Snapshot) (deleteResult : String → Option String)
    (now : Nat) (key : Key) (s : AppState) : AppState × Nat :=
  let s := if s.delete_confirmation_pending && key ≠ .char 'd' then
      clear_delete_confirmation s
    else s
  handle_key_event fetchDatasets fetchSnaps deleteResult now key s

/-- Modelled from the spec: "timeout elapse (checked once per UI tick)
disarms the pending flag without side effect" (§4.6); the event loop
performing this once-per-tick check is not among the sources under src.  The
check itself is the real `is_delete_confirmation_expired` of src/state.rs; a
tick invokes no deletion. -/
def ui_tick (now : Nat) (s : AppState) : AppState :=
  if is_delete_confirmation_expired now s then clear_delete_confirmation s else s

/-- `DataManager::load_pools` (src/data.rs lines 36-43) at the state level:
replace the pool list wholesale.  The background prefetch it spawns only
touches the snapshot cache and the progress atomics (modelled by
`prefetchAfter`), never the navigation state. -/
def load_pools (fetchPools : List Pool) (s : AppState) : AppState :=
  { s with data_manager := { s.data_manager with pools := fetchPools } }

/-- A dataset view over a single dataset with the selection on it, used to
exercise `update_scroll` at visible height zero (the UI computes the height
as `area.height.saturating_sub(2)`, which is zero on a tiny terminal). -/
def tinyTerminalState : AppState :=
  { AppState.initial false with
    current_view := .datasetView "tank"
    data_manager := { DataManager.new with
      datasets := [{ name := "tank", used := 1, available := 1
                     referenced := 1, snapshot_used := 0 }] } }

/-- A snapshot view with one snapshot, an in-range selection and a delete
confirmation armed at second 10, used to witness the confirmation
lifecycle. -/
def armedSnapshotView : AppState :=
  { AppState.initial false with
    current_view := .snapshotDetail "tank" "tank/home"
    data_manager := { DataManager.new with
      snapshots := [{ name := "tank/home@daily-2024-01-15", used := 1
                      referenced := 2, creation := "t" }] }
    delete_confirmation_pending := true
    delete_confirmation_timestamp := some 10 }

/-- The amended selection invariant: each selected index is below
`max 1 length` of its backing collection — strictly below the length when
the collection is non-empty, and pinned to `0` when it is empty (a `usize`
index can never be `< 0`, so the claim's strict bound is unsatisfiable
there). -/
def selection_inv (s : AppState) : Prop :=
  s.selected_pool_index < max 1 s.data_manager.pools.length ∧
  s.selected_dataset_index < max 1 s.data_manager.datasets.length ∧
  s.selected_snapshot_index < max 1 s.data_manager.snapshots.length

/-! ## Shared helper lemmas -/

/-- A `sort_datasets` call never changes the number of datasets. -/
theorem length_sort_datasets (o : DatasetSortOrder) (l : List Dataset) :
    (sort_datasets o l).length = l.length := by
  cases o <;> simp [sort_datasets, List.length_mergeSort]

/-- A `sort_snapshots` call never changes the number of snapshots. -/
theorem length_sort_snapshots (o : SnapshotSortOrder) (l : List Snapshot) :
    (sort_snapshots o l).length = l.length := by
  cases o <;> simp [sort_snapshots, List.length_mergeSort]

/-- Looking up the key just inserted finds exactly the inserted value. -/
theorem cacheLookup_cacheInsert (k : String) (v : List Snapshot) (c : SnapshotCache) :
    cacheLookup k (cacheInsert k v c) = some v := by
  simp [cacheLookup, cacheInsert, List.find?]

/-- The completed counter after a fold over prefetch tasks counts exactly the
tasks folded, whatever their outcomes. -/
theorem prefetch_counter_foldl (l : List (String × FetchOutcome))
    (cache : SnapshotCache) (n : Nat) :
    ((l.foldl (fun st t => prefetchTask t.1 t.2 st) (cache, n)).2) = n + l.length := by
  induction l generalizing cache n with
  | nil => simp
  | cons t ts ih =>
    rcases t with ⟨name, o⟩
    rw [List.foldl_cons, List.length_cons]
    cases o with
    | success snaps =>
      exact (ih (cacheInsert name snaps cache) (n + 1)).trans (by omega)
    | failure =>
      exact (ih cache (n + 1)).trans (by omega)

/-- `load_snapshots` on a cache miss (or an empty cached list): one live
fetch written through to the cache. -/
theorem load_snapshots_miss (fetch : String → List Snapshot) (dm : DataManager)
    (name : String) (h : (get_cached_snapshots dm name).getD [] = []) :
    load_snapshots fetch dm name =
      { dm := cache_snapshots { dm with snapshots := fetch name } name
        fetches := 1, cacheWrites := 1 } := by
  simp [load_snapshots, h]

/-- `load_snapshots` on a non-empty cache hit: served from the cache with no
fetch and no cache write. -/
theorem load_snapshots_hit (fetch : String → List Snapshot) (dm : DataManager)
    (name : String) (l : List Snapshot)
    (h : get_cached_snapshots dm name = some l) (hne : l ≠ []) :
    load_snapshots fetch dm name =
      { dm := { dm with snapshots := l }, fetches := 0, cacheWrites := 0 } := by
  have h3 : l.isEmpty = false := by
    simp [List.isEmpty_iff]
    exact hne
  simp [load_snapshots, h, h3]

/-! ## Claim C1 -/

/-- C1: the entity parser is claimed to turn every tab-separated line into a
typed record or drop it, never fatally, for every field count.  The pool-line
parser refutes this: its guard lets through any line with at least 7 fields but it
then reads field index 9, so a line with exactly 7 fields — well-formed
enough to pass the guard — panics with an out-of-bounds index and aborts the
whole listing.  The dataset-line parser, by contrast, handles the very same
shape without a panic, which shows the guard, not the field access, is the
slip. -/
theorem C1_pool_parser_panics_on_seven_fields :
    parsePoolLine ("tank\t1\t2\t3\t-\t-\tONLINE".data) = LineResult.fatal ∧
    get_pools (.exited true (some ("tank\t1\t2\t3\t-\t-\tONLINE".data))) = .fatal ∧
    parseDatasetLine ("tank\t1\t2\t3\t-".data) =
      LineResult.record { name := "tank", used := 1, available := 2
                          referenced := 3, snapshot_used := 0 } ∧
    parsePoolLine ("tank\t1\t2\t3\ta\tb\tc\td\te\tONLINE".data) =
      LineResult.record { name := "tank", size := 1, allocated := 2
                          free := 3, health := "ONLINE" } := by
  refine ⟨by decide, by decide, by decide, by decide⟩

/-! ## Claim C2 -/

/-- C2 counterexample: the claim says a failed tool invocation yields a typed
error, but each fetch returns `Ok` with mock data on a spawn failure and on a
non-zero exit alike. -/
theorem C2_counterexample_failure_returns_mock :
    get_pools .spawnErr = .ok get_mock_pools ∧
    get_datasets "tank" (.exited false (some ("".data))) = .ok (get_mock_datasets "tank") ∧
    get_snapshots "tank/home" .spawnErr = .ok (get_mock_snapshots "tank/home") := by
  exact ⟨rfl, rfl, rfl⟩

/-- C2 amended: if the external tool invocation fails — it cannot be spawned
or exits non-zero — the fetch returns `Ok` carrying the built-in mock data
for its scope, not an error; no retry is performed (each fetch function
invokes the command exactly once and is a function of that one outcome). -/
theorem C2_amended_failure_yields_mock (o : CmdOutcome) (h : o.isFailure = true) :
    get_pools o = .ok get_mock_pools ∧
    (∀ p, get_datasets p o = .ok (get_mock_datasets p)) ∧
    (∀ d, get_snapshots d o = .ok (get_mock_snapshots d)) := by
  cases o with
  | spawnErr => exact ⟨rfl, fun _ => rfl, fun _ => rfl⟩
  | exited success stdout =>
    cases success with
    | false => exact ⟨rfl, fun _ => rfl, fun _ => rfl⟩
    | true => simp [CmdOutcome.isFailure] at h

/-- C2 amended, witnessed at a concrete failing invocation. -/
theorem C2_amended_failure_yields_mock_witness :
    CmdOutcome.isFailure .spawnErr = true ∧
    get_pools .spawnErr = .ok get_mock_pools ∧
    get_datasets "backup" .spawnErr = .ok (get_mock_datasets "backup") := by
  refine ⟨rfl, ?_, ?_⟩
  · exact (C2_amended_failure_yields_mock .spawnErr rfl).1
  · exact (C2_amended_failure_yields_mock .spawnErr rfl).2.1 "backup"

/-! ## Claim C3 -/

/-- C3: whenever the external command cannot be spawned or exits non-zero,
all three fetches return `Ok` with their built-in mock data; the mock pool
list is exactly the three pools tank, backup, archive; pool or dataset names
outside the mock tables yield the empty list; and an `Err` is produced only
when a successful command's stdout is not valid UTF-8. -/
theorem C3_failure_yields_mock_and_err_only_on_bad_utf8 :
    (∀ o : CmdOutcome, o.isFailure = true →
      get_pools o = .ok get_mock_pools ∧
      (∀ p, get_datasets p o = .ok (get_mock_datasets p)) ∧
      (∀ d, get_snapshots d o = .ok (get_mock_snapshots d))) ∧
    get_mock_pools.map Pool.name = ["tank", "backup", "archive"] ∧
    (∀ p, p ≠ "tank" → p ≠ "backup" → p ≠ "archive" → get_mock_datasets p = []) ∧
    (∀ d, d ≠ "tank/home" → d ≠ "tank/data" → d ≠ "tank/vm" →
      d ≠ "backup/daily" → d ≠ "archive" → get_mock_snapshots d = []) ∧
    (∀ o, get_pools o = .err → o = .exited true none) ∧
    (∀ p o, get_datasets p o = .err → o = .exited true none) ∧
    (∀ d o, get_snapshots d o = .err → o = .exited true none) := by
  refine ⟨C2_amended_failure_yields_mock, rfl, ?_, ?_, ?_, ?_, ?_⟩
  · intro p h1 h2 h3
    simp [get_mock_datasets, h1, h2, h3]
  · intro d h1 h2 h3 h4 h5
    simp [get_mock_snapshots, h1, h2, h3, h4, h5]
  · intro o h
    rcases o with _ | ⟨success, stdout⟩
    · simp [get_pools] at h
    · rcases success with _ | _
      · simp [get_pools] at h
      · rcases stdout with _ | s
        · rfl
        · simp [get_pools] at h
          rcases hp : parseLinesWith parsePoolLine (rustLines s) with _ | pools <;>
            simp [hp] at h
  · intro p o h
    rcases o with _ | ⟨success, stdout⟩
    · simp [get_datasets] at h
    · rcases success with _ | _
      · simp [get_datasets] at h
      · rcases stdout with _ | s
        · rfl
        · simp [get_datasets] at h
          rcases hp : parseLinesWith parseDatasetLine (rustLines s) with _ | ds <;>
            simp [hp] at h
  · intro d o h
    rcases o with _ | ⟨success, stdout⟩
    · simp [get_snapshots] at h
    · rcases success with _ | _
      · simp [get_snapshots] at h
      · rcases stdout with _ | s
        · rfl
        · simp [get_snapshots] at h
          rcases hp : parseLinesWith parseSnapshotLine (rustLines s) with _ | xs <;>
            simp [hp] at h

/-- C3, witnessed at concrete inputs. -/
theorem C3_witness :
    CmdOutcome.isFailure (.exited false (some ("".data))) = true ∧
    get_snapshots "tank/vm" (.exited false (some ("".data))) =
      .ok (get_mock_snapshots "tank/vm") ∧
    get_mock_datasets "otherpool" = [] := by
  refine ⟨rfl, ?_, ?_⟩
  · exact (C3_failure_yields_mock_and_err_only_on_bad_utf8.1
      (.exited false (some ("".data))) rfl).2.2 "tank/vm"
  · exact C3_failure_yields_mock_and_err_only_on_bad_utf8.2.2.1 "otherpool"
      (by decide) (by decide) (by decide)

/-! ## Claim C6 -/

/-- C6 counterexample: the claim says a second `load_snapshots` call for an
already-cached name performs zero live fetches, but when the first fetch
returned an empty snapshot list, the cached empty list is indistinguishable
from a miss and the second call fetches again. -/
theorem C6_counterexample_empty_cache_entry_refetches :
    get_cached_snapshots DataManager.new "tank/empty" = none ∧
    (load_snapshots (fun _ => []) DataManager.new "tank/empty").fetches = 1 ∧
    (load_snapshots (fun _ => []) DataManager.new "tank/empty").cacheWrites = 1 ∧
    get_cached_snapshots
      (load_snapshots (fun _ => []) DataManager.new "tank/empty").dm
      "tank/empty" = some [] ∧
    (load_snapshots (fun _ => [])
      (load_snapshots (fun _ => []) DataManager.new "tank/empty").dm
      "tank/empty").fetches ≠ 0 := by
  refine ⟨rfl, rfl, rfl, by decide, by decide⟩

/-- C6 amended: for a dataset name with no cache entry, `load_snapshots`
performs exactly one live fetch and one cache write; a second call with no
intervening reload performs zero live fetches and is served from the cache
provided the fetched snapshot list was non-empty (an empty cached list is
indistinguishable from a miss and is intentionally re-fetched). -/
theorem C6_amended_load_snapshots_cache_discipline
    (fetch : String → List Snapshot) (dm : DataManager) (name : String)
    (hmiss : get_cached_snapshots dm name = none) :
    (load_snapshots fetch dm name).fetches = 1 ∧
    (load_snapshots fetch dm name).cacheWrites = 1 ∧
    (fetch name ≠ [] →
      (load_snapshots fetch (load_snapshots fetch dm name).dm name).fetches = 0 ∧
      (load_snapshots fetch (load_snapshots fetch dm name).dm name).dm.snapshots =
        fetch name) := by
  have h1 : load_snapshots fetch dm name =
      { dm := cache_snapshots { dm with snapshots := fetch name } name
        fetches := 1, cacheWrites := 1 } :=
    load_snapshots_miss fetch dm name (by simp [hmiss])
  refine ⟨by rw [h1], by rw [h1], ?_⟩
  intro hne
  have h2 : get_cached_snapshots (load_snapshots fetch dm name).dm name =
      some (fetch name) := by
    rw [h1]
    exact cacheLookup_cacheInsert name (fetch name) dm.snapshot_cache
  have h4 := load_snapshots_hit fetch (load_snapshots fetch dm name).dm name
    (fetch name) h2 hne
  rw [h4]
  exact ⟨rfl, rfl⟩

/-- C6 amended, witnessed with a one-snapshot fetch. -/
theorem C6_amended_witness :
    get_cached_snapshots DataManager.new "tank/home" = none ∧
    ((fun _ => [{ name := "tank/home@s", used := 1, referenced := 2
                  creation := "t" }] : String → List Snapshot) "tank/home" ≠ []) ∧
    (load_snapshots
      (fun _ => [{ name := "tank/home@s", used := 1, referenced := 2, creation := "t" }])
      (load_snapshots
        (fun _ => [{ name := "tank/home@s", used := 1, referenced := 2, creation := "t" }])
        DataManager.new "tank/home").dm
      "tank/home").fetches = 0 := by
  refine ⟨rfl, by decide, ?_⟩
  exact ((C6_amended_load_snapshots_cache_discipline
    (fun _ => [{ name := "tank/home@s", used := 1, referenced := 2, creation := "t" }])
    DataManager.new "tank/home" rfl).2.2 (by decide)).1

/-! ## Claim C7 -/

/-- C7: every `reload_snapshots` call performs exactly one live fetch no
matter what the cache holds, and afterwards the cache entry for the dataset's
key is exactly the freshly fetched snapshot list (any previous entry is
overwritten). -/
theorem C7_reload_always_fetches_and_overwrites
    (fetch : String → List Snapshot) (dm : DataManager) (name : String) :
    (reload_snapshots fetch dm name).fetches = 1 ∧
    get_cached_snapshots (reload_snapshots fetch dm name).dm name =
      some (fetch name) ∧
    (reload_snapshots fetch dm name).dm.snapshots = fetch name := by
  refine ⟨rfl, ?_, rfl⟩
  exact cacheLookup_cacheInsert name (fetch name) dm.snapshot_cache

/-! ## Claim C8 -/

/-- C8: during a prefetch run the completed counter after any number `k` of
resolved tasks never exceeds the total published for the run, and once all
dispatched tasks have resolved it equals the total — whatever each task's
outcome, including a run in which every fetch fails. -/
theorem C8_prefetch_completed_bounded_and_exact
    (work : List (String × FetchOutcome)) (cache : SnapshotCache) :
    (∀ k, (prefetchAfter work cache k).2 ≤ prefetchTotal work) ∧
    (prefetchAfter work cache work.length).2 = prefetchTotal work ∧
    (∀ names : List String,
      (prefetchAfter (names.map fun n => (n, .failure)) cache
        (names.map fun n => (n, FetchOutcome.failure)).length).2 =
      prefetchTotal (names.map fun n => (n, .failure))) := by
  refine ⟨?_, ?_, ?_⟩
  · intro k
    rw [prefetchAfter, prefetch_counter_foldl]
    simp [prefetchTotal, List.length_take_le k work]
  · rw [prefetchAfter, prefetch_counter_foldl]
    simp [prefetchTotal]
  · intro names
    rw [prefetchAfter, prefetch_counter_foldl]
    simp [prefetchTotal]

/-! ## Claim C10 -/

/-- C10: toggling a sort key is a full cycle through the fixed order of keys:
eight successive `next` steps return any dataset sort key to itself, and six
return any snapshot sort key to itself. -/
theorem C10_sort_toggle_full_cycle :
    (∀ d : DatasetSortOrder, DatasetSortOrder.next^[8] d = d) ∧
    (∀ s : SnapshotSortOrder, SnapshotSortOrder.next^[6] s = s) := by
  constructor
  · intro d; cases d <;> rfl
  · intro s; cases s <;> rfl

/-! ## Claim C9 -/

/-- C9 counterexample: with visible height `h = 0` and a one-element dataset
collection whose selected index `0` satisfies `i < n`, `update_scroll` moves
the scroll offset to `1`, so the selected index does not lie in the claimed
window `[offset, offset + h)` (which is empty). -/
theorem C9_counterexample_zero_height :
    tinyTerminalState.selected_dataset_index <
      tinyTerminalState.data_manager.datasets.length ∧
    (update_scroll 0 tinyTerminalState).dataset_scroll_offset = 1 ∧
    ¬ ((update_scroll 0 tinyTerminalState).dataset_scroll_offset ≤
         (update_scroll 0 tinyTerminalState).selected_dataset_index ∧
       (update_scroll 0 tinyTerminalState).selected_dataset_index <
         (update_scroll 0 tinyTerminalState).dataset_scroll_offset + 0) := by
  refine ⟨by decide, by decide, by decide⟩

/-- C9 amended: for every visible height `h ≥ 1`, after `update_scroll h` on
a dataset or snapshot view whose selected index is below its collection
length `n`, the view's scroll offset is at most `n - h` (which is
`max(0, n - h)` in saturating arithmetic) and the selected index lies in
`[offset, offset + h)`. -/
theorem C9_amended_scroll_window (s : AppState) (h : Nat) (hh : 1 ≤ h) :
    (∀ p, s.current_view = .datasetView p →
      s.selected_dataset_index < s.data_manager.datasets.length →
      (update_scroll h s).dataset_scroll_offset ≤
        s.data_manager.datasets.length - h ∧
      (update_scroll h s).dataset_scroll_offset ≤ s.selected_dataset_index ∧
      s.selected_dataset_index < (update_scroll h s).dataset_scroll_offset + h) ∧
    (∀ p d, s.current_view = .snapshotDetail p d →
      s.selected_snapshot_index < s.data_manager.snapshots.length →
      (update_scroll h s).snapshot_scroll_offset ≤
        s.data_manager.snapshots.length - h ∧
      (update_scroll h s).snapshot_scroll_offset ≤ s.selected_snapshot_index ∧
      s.selected_snapshot_index < (update_scroll h s).snapshot_scroll_offset + h) := by
  constructor
  · intro p hv hsel
    unfold update_scroll
    rw [hv]
    simp only
    split_ifs <;> simp <;> omega
  · intro p d hv hsel
    unfold update_scroll
    rw [hv]
    simp only
    split_ifs <;> simp <;> omega

/-- C9 amended, witnessed at a concrete state and height 1. -/
theorem C9_amended_scroll_window_witness :
    (1 : Nat) ≤ 1 ∧
    tinyTerminalState.current_view = .datasetView "tank" ∧
    tinyTerminalState.selected_dataset_index <
      tinyTerminalState.data_manager.datasets.length ∧
    (update_scroll 1 tinyTerminalState).dataset_scroll_offset ≤
      tinyTerminalState.data_manager.datasets.length - 1 ∧
    tinyTerminalState.selected_dataset_index <
      (update_scroll 1 tinyTerminalState).dataset_scroll_offset + 1 := by
  refine ⟨by decide, rfl, by decide, ?_, ?_⟩
  · exact ((C9_amended_scroll_window tinyTerminalState 1 (by decide)).1 "tank"
      rfl (by decide)).1
  · exact ((C9_amended_scroll_window tinyTerminalState 1 (by decide)).1 "tank"
      rfl (by decide)).2.2

/-! ## Claim C5 -/

/-- `load_snapshots` never touches the pool or dataset collections. -/
theorem load_snapshots_dm_fixed (f : String → List Snapshot) (dm : DataManager)
    (n : String) :
    (load_snapshots f dm n).dm.pools = dm.pools ∧
    (load_snapshots f dm n).dm.datasets = dm.datasets := by
  by_cases hc : ((get_cached_snapshots dm n).getD []).isEmpty
  · simp [load_snapshots, cache_snapshots, hc]
  · simp [load_snapshots, cache_snapshots, hc]

/-- `reload_snapshots` never touches the pool or dataset collections. -/
theorem reload_snapshots_dm_fixed (f : String → List Snapshot) (dm : DataManager)
    (n : String) :
    (reload_snapshots f dm n).dm.pools = dm.pools ∧
    (reload_snapshots f dm n).dm.datasets = dm.datasets :=
  ⟨rfl, rfl⟩

/-- `previous_item` keeps every selected index in range. -/
theorem selection_inv_previous_item (s : AppState) (h : selection_inv s) :
    selection_inv (previous_item s) := by
  obtain ⟨h1, h2, h3⟩ := h
  unfold selection_inv
  cases hv : s.current_view <;> simp [previous_item, hv] <;> omega

/-- `next_item` keeps every selected index in range. -/
theorem selection_inv_next_item (s : AppState) (h : selection_inv s) :
    selection_inv (next_item s) := by
  obtain ⟨h1, h2, h3⟩ := h
  unfold selection_inv
  cases hv : s.current_view <;> simp [next_item, hv] <;> omega

/-- `page_up` keeps every selected index in range. -/
theorem selection_inv_page_up (s : AppState) (h : selection_inv s) :
    selection_inv (page_up s) := by
  obtain ⟨h1, h2, h3⟩ := h
  unfold selection_inv
  cases hv : s.current_view <;> simp [page_up, hv] <;> omega

/-- `page_down` keeps every selected index in range. -/
theorem selection_inv_page_down (s : AppState) (h : selection_inv s) :
    selection_inv (page_down s) := by
  obtain ⟨h1, h2, h3⟩ := h
  unfold selection_inv
  cases hv : s.current_view <;> simp [page_down, hv] <;> omega

/-- `go_back` changes only the view, never an index or a collection. -/
theorem selection_inv_go_back (s : AppState) (h : selection_inv s) :
    selection_inv (go_back s) := by
  obtain ⟨h1, h2, h3⟩ := h
  unfold selection_inv
  cases hv : s.current_view with
  | help =>
    cases hp : s.previous_view <;> simp [go_back, hv, hp] <;> omega
  | _ =>
    simp [go_back, hv]
    omega

/-- `show_help` changes only the view. -/
theorem selection_inv_show_help (s : AppState) (h : selection_inv s) :
    selection_inv (show_help s) := by
  obtain ⟨h1, h2, h3⟩ := h
  unfold selection_inv
  simp [show_help]
  omega

/-- `toggle_sort` permutes one collection and resets its index to 0. -/
theorem selection_inv_toggle_sort (s : AppState) (h : selection_inv s) :
    selection_inv (toggle_sort s) := by
  obtain ⟨h1, h2, h3⟩ := h
  unfold selection_inv
  cases hv : s.current_view <;>
    simp [toggle_sort, hv, reset_dataset_selection, reset_snapshot_selection,
      length_sort_datasets, length_sort_snapshots] <;> omega

/-- `go_forward` loads a child collection and resets its index to 0; all
other indices and collections survive untouched. -/
theorem selection_inv_go_forward (fd : String → List Dataset)
    (fs : String → List Snapshot) (s : AppState) (h : selection_inv s) :
    selection_inv (go_forward fd fs s) := by
  obtain ⟨h1, h2, h3⟩ := h
  unfold selection_inv
  cases hv : s.current_view with
  | poolList =>
    rcases hp : s.data_manager.pools[s.selected_pool_index]? with _ | pool <;>
      simp [go_forward, hv, hp, reset_dataset_selection] <;> omega
  | datasetView pool_name =>
    rcases hd : s.data_manager.datasets[s.selected_dataset_index]? with _ | d
    · simp [go_forward, hv, hd]
      omega
    · have hfix := load_snapshots_dm_fixed fs
        { s.data_manager with snapshots := s.data_manager.snapshots } d.name
      simp [go_forward, hv, hd, reset_snapshot_selection,
        (load_snapshots_dm_fixed fs s.data_manager d.name).1,
        (load_snapshots_dm_fixed fs s.data_manager d.name).2]
      omega
  | snapshotDetail p d =>
    simp [go_forward, hv]
    omega
  | help =>
    simp [go_forward, hv]
    omega

/-- `handle_delete_key` arms, clears, or deletes; in the deletion path the
snapshot collection is replaced and the snapshot index clamped to it. -/
theorem selection_inv_handle_delete_key (fs : String → List Snapshot)
    (dr : String → Option String) (now : Nat) (s : AppState)
    (h : selection_inv s) :
    selection_inv (handle_delete_key fs dr now s).1 := by
  obtain ⟨h1, h2, h3⟩ := h
  unfold selection_inv
  cases hv : s.current_view with
  | snapshotDetail p d =>
    by_cases he : s.data_manager.snapshots.isEmpty
    · simp [handle_delete_key, hv, he]
      omega
    · by_cases hpend : s.delete_confirmation_pending
      · rcases hg : s.data_manager.snapshots[s.selected_snapshot_index]? with
          _ | snap
        · simp [handle_delete_key, hv, he, hpend, hg, clear_delete_confirmation]
          omega
        · rcases hdel : dr snap.name with _ | e
          · have hls := length_sort_snapshots s.sort_manager.snapshot_sort_order
              (fs d)
            simp only [handle_delete_key, hv, he, hpend, hg, hdel,
              clear_delete_confirmation, reload_snapshots, cache_snapshots,
              Bool.not_true, Bool.false_eq_true, if_false]
            split_ifs <;> simp [length_sort_snapshots] <;> omega
          · simp [handle_delete_key, hv, he, hpend, hg, hdel,
              clear_delete_confirmation, set_error]
            omega
      · simp [handle_delete_key, hv, he, hpend, start_delete_confirmation]
        omega
  | _ =>
    simp [handle_delete_key, hv]
    omega

/-- Every `handle_help_key` call preserves the selection invariant. -/
theorem selection_inv_handle_help_key (key : Key) (s : AppState)
    (h : selection_inv s) : selection_inv (handle_help_key key s).1 := by
  unfold handle_help_key
  split_ifs
  · exact h
  · exact h
  · exact selection_inv_go_back s h
  · exact h

set_option maxHeartbeats 1000000 in
/-- Every `handle_main_key` call preserves the selection invariant. -/
theorem selection_inv_handle_main_key (fd : String → List Dataset)
    (fs : String → List Snapshot) (dr : String → Option String) (now : Nat)
    (key : Key) (s : AppState) (h : selection_inv s) :
    selection_inv (handle_main_key fd fs dr now key s).1 := by
  unfold handle_main_key
  split_ifs
  · exact h
  · exact h
  · exact selection_inv_show_help s h
  · exact selection_inv_toggle_sort s h
  · exact selection_inv_handle_delete_key fs dr now s h
  · exact selection_inv_go_back s h
  · exact selection_inv_go_forward fd fs s h
  · exact selection_inv_previous_item s h
  · exact selection_inv_next_item s h
  · exact selection_inv_page_up s h
  · exact selection_inv_page_down s h
  · exact h

/-- Every `handle_key_event` call preserves the selection invariant. -/
theorem selection_inv_handle_key_event (fd : String → List Dataset)
    (fs : String → List Snapshot) (dr : String → Option String) (now : Nat)
    (key : Key) (s : AppState) (h : selection_inv s) :
    selection_inv (handle_key_event fd fs dr now key s).1 := by
  unfold handle_key_event
  by_cases herr : s.error_message.isSome
  · rw [if_pos herr]
    exact h
  · rw [if_neg herr]
    cases hv : s.current_view with
    | help => exact selection_inv_handle_help_key key s h
    | poolList => exact selection_inv_handle_main_key fd fs dr now key s h
    | datasetView p => exact selection_inv_handle_main_key fd fs dr now key s h
    | snapshotDetail p d => exact selection_inv_handle_main_key fd fs dr now key s h

/-- Every key event dispatched through `dispatch_key` (the spec-modelled
disarming dispatcher in front of `handle_key_event`) preserves the selection
invariant. -/
theorem selection_inv_dispatch_key (fd : String → List Dataset)
    (fs : String → List Snapshot) (dr : String → Option String) (now : Nat)
    (key : Key) (s : AppState) (h : selection_inv s) :
    selection_inv (dispatch_key fd fs dr now key s).1 := by
  unfold dispatch_key
  split_ifs with hc
  · exact selection_inv_handle_key_event fd fs dr now key
      (clear_delete_confirmation s) h
  · exact selection_inv_handle_key_event fd fs dr now key s h

/-- C5 counterexample: after an initial load that finds no pools, the
selected pool index is 0 and the pool collection length is 0, so the claimed
strict bound `index < length` fails for the length-0 case the claim covers. -/
theorem C5_counterexample_empty_initial_load :
    (load_pools [] (AppState.initial false)).data_manager.pools.length = 0 ∧
    ¬ ((load_pools [] (AppState.initial false)).selected_pool_index <
       (load_pools [] (AppState.initial false)).data_manager.pools.length) := by
  exact ⟨rfl, by decide⟩

/-- C5 amended: after the initial state, after an initial load, and after any
dispatched key event — sort toggle, forward and backward navigation,
selection movement, and deletion included — every selected index is strictly
below `max 1 length` of its backing collection: strictly below the length
whenever the collection is non-empty, and 0 when it is empty. -/
theorem C5_amended_selection_always_in_range :
    (∀ ro : Bool, selection_inv (AppState.initial ro)) ∧
    (∀ (ro : Bool) (pools : List Pool),
      selection_inv (load_pools pools (AppState.initial ro))) ∧
    (∀ (fd : String → List Dataset) (fs : String → List Snapshot)
      (dr : String → Option String) (now : Nat) (key : Key) (s : AppState),
      selection_inv s → selection_inv (dispatch_key fd fs dr now key s).1) := by
  refine ⟨?_, ?_, ?_⟩
  · intro ro
    show (0 : Nat) < max 1 (0 : Nat) ∧ (0 : Nat) < max 1 (0 : Nat) ∧
      (0 : Nat) < max 1 (0 : Nat)
    refine ⟨by omega, by omega, by omega⟩
  · intro ro pools
    show (0 : Nat) < max 1 pools.length ∧ (0 : Nat) < max 1 (0 : Nat) ∧
      (0 : Nat) < max 1 (0 : Nat)
    refine ⟨by omega, by omega, by omega⟩
  · intro fd fs dr now key s h
    exact selection_inv_dispatch_key fd fs dr now key s h

/-- C5 amended, witnessed by a Down keypress on a freshly loaded state. -/
theorem C5_amended_selection_witness :
    selection_inv (load_pools get_mock_pools (AppState.initial false)) ∧
    selection_inv (dispatch_key (fun _ => []) (fun _ => []) (fun _ => none) 0
      Key.down (load_pools get_mock_pools (AppState.initial false))).1 := by
  constructor
  · exact C5_amended_selection_always_in_range.2.1 false get_mock_pools
  · exact C5_amended_selection_always_in_range.2.2 (fun _ => []) (fun _ => [])
      (fun _ => none) 0 Key.down
      (load_pools get_mock_pools (AppState.initial false))
      ⟨by decide, by decide, by decide⟩

/-! ## Claim C4 -/

/-- `go_back` never touches the delete-confirmation flag. -/
theorem go_back_pending (s : AppState) :
    (go_back s).delete_confirmation_pending = s.delete_confirmation_pending := by
  cases hv : s.current_view with
  | help => cases hp : s.previous_view <;> simp [go_back, hv, hp]
  | _ => simp [go_back, hv]

/-- `go_forward` never touches the delete-confirmation flag. -/
theorem go_forward_pending (fd : String → List Dataset)
    (fs : String → List Snapshot) (s : AppState) :
    (go_forward fd fs s).delete_confirmation_pending =
      s.delete_confirmation_pending := by
  cases hv : s.current_view with
  | poolList =>
    rcases hp : s.data_manager.pools[s.selected_pool_index]? with _ | pool <;>
      simp [go_forward, hv, hp, reset_dataset_selection]
  | datasetView p =>
    rcases hd : s.data_manager.datasets[s.selected_dataset_index]? with _ | d <;>
      simp [go_forward, hv, hd, reset_snapshot_selection]
  | snapshotDetail p d => simp [go_forward, hv]
  | help => simp [go_forward, hv]

/-- `toggle_sort` never touches the delete-confirmation flag. -/
theorem toggle_sort_pending (s : AppState) :
    (toggle_sort s).delete_confirmation_pending =
      s.delete_confirmation_pending := by
  cases hv : s.current_view <;>
    simp [toggle_sort, hv, reset_dataset_selection, reset_snapshot_selection]

/-- Movement keys never touch the delete-confirmation flag. -/
theorem movement_pending (s : AppState) :
    (previous_item s).delete_confirmation_pending = s.delete_confirmation_pending ∧
    (next_item s).delete_confirmation_pending = s.delete_confirmation_pending ∧
    (page_up s).delete_confirmation_pending = s.delete_confirmation_pending ∧
    (page_down s).delete_confirmation_pending = s.delete_confirmation_pending := by
  refine ⟨?_, ?_, ?_, ?_⟩ <;>
    (cases hv : s.current_view <;>
      simp [previous_item, next_item, page_up, page_down, hv])

/-- A help-view key press neither re-arms a confirmation nor deletes. -/
theorem handle_help_key_pending (key : Key) (s : AppState) :
    (handle_help_key key s).1.delete_confirmation_pending =
      s.delete_confirmation_pending ∧
    (handle_help_key key s).2 = 0 := by
  unfold handle_help_key
  split_ifs
  · exact ⟨rfl, rfl⟩
  · exact ⟨rfl, rfl⟩
  · exact ⟨go_back_pending s, rfl⟩
  · exact ⟨rfl, rfl⟩

set_option maxHeartbeats 1000000 in
/-- A non-`'d'` main-view key press neither re-arms a confirmation nor
deletes. -/
theorem handle_main_key_pending (fd : String → List Dataset)
    (fs : String → List Snapshot) (dr : String → Option String) (now : Nat)
    (key : Key) (s : AppState) (hkey : key ≠ Key.char 'd') :
    (handle_main_key fd fs dr now key s).1.delete_confirmation_pending =
      s.delete_confirmation_pending ∧
    (handle_main_key fd fs dr now key s).2 = 0 := by
  unfold handle_main_key
  split_ifs with h1 h2 h3 h4 h5 h6 h7 h8 h9 h10 h11
  · exact ⟨rfl, rfl⟩
  · exact ⟨rfl, rfl⟩
  · exact ⟨rfl, rfl⟩
  · exact ⟨toggle_sort_pending s, rfl⟩
  · exact absurd h5.1 hkey
  · exact ⟨go_back_pending s, rfl⟩
  · exact ⟨go_forward_pending fd fs s, rfl⟩
  · exact ⟨(movement_pending s).1, rfl⟩
  · exact ⟨(movement_pending s).2.1, rfl⟩
  · exact ⟨(movement_pending s).2.2.1, rfl⟩
  · exact ⟨(movement_pending s).2.2.2, rfl⟩
  · exact ⟨rfl, rfl⟩

/-- In the snapshot view, with a pending confirmation, a non-empty snapshot
collection and an in-range selection, `handle_delete_key` invokes exactly one
deletion. -/
theorem handle_delete_key_one_deletion (fs : String → List Snapshot)
    (dr : String → Option String) (now : Nat) (s : AppState) (p d : String)
    (hv : s.current_view = .snapshotDetail p d)
    (hpend : s.delete_confirmation_pending = true)
    (hsel : s.selected_snapshot_index < s.data_manager.snapshots.length) :
    (handle_delete_key fs dr now s).2 = 1 := by
  have hnil : s.data_manager.snapshots ≠ [] := by
    intro hnil
    rw [hnil] at hsel
    simp at hsel
  have hne : s.data_manager.snapshots.isEmpty = false := by
    simp [List.isEmpty_iff]
    exact hnil
  have hsnap : s.data_manager.snapshots[s.selected_snapshot_index]? =
      some (s.data_manager.snapshots[s.selected_snapshot_index]) :=
    List.getElem?_eq_getElem hsel
  unfold handle_delete_key
  rw [hv]
  simp only [hne, hpend, hsnap, Bool.false_eq_true, if_false, Bool.not_true]
  cases hdel : dr (s.data_manager.snapshots[s.selected_snapshot_index]).name <;>
    simp [hdel]

/-- C4: the delete-confirmation lifecycle.  Armed state plus any non-`'d'`
key within the timeout: the pending flag is cleared and no deletion is
invoked.  Armed state plus a second `'d'` before the timeout (snapshot view,
no pending error, not read-only, selection valid): exactly one
`delete_snapshot` invocation.  Expired confirmation at a UI tick: the pending
flag is cleared, and a tick never invokes a deletion (`ui_tick` contains no
deletion call at all). -/
theorem C4_delete_confirmation_lifecycle :
    (∀ (fd : String → List Dataset) (fs : String → List Snapshot)
      (dr : String → Option String) (now : Nat) (key : Key) (s : AppState),
      key ≠ Key.char 'd' →
      s.delete_confirmation_pending = true →
      is_delete_confirmation_expired now s = false →
      (dispatch_key fd fs dr now key s).1.delete_confirmation_pending = false ∧
      (dispatch_key fd fs dr now key s).2 = 0) ∧
    (∀ (fd : String → List Dataset) (fs : String → List Snapshot)
      (dr : String → Option String) (now : Nat) (s : AppState) (p d : String),
      s.current_view = .snapshotDetail p d →
      s.error_message = none →
      s.config_readonly = false →
      s.delete_confirmation_pending = true →
      is_delete_confirmation_expired now s = false →
      s.selected_snapshot_index < s.data_manager.snapshots.length →
      (dispatch_key fd fs dr now (Key.char 'd') s).2 = 1) ∧
    (∀ (now : Nat) (s : AppState),
      is_delete_confirmation_expired now s = true →
      (ui_tick now s).delete_confirmation_pending = false) := by
  refine ⟨?_, ?_, ?_⟩
  · intro fd fs dr now key s hkey hpend hexp
    have hcond : (s.delete_confirmation_pending &&
        decide (key ≠ Key.char 'd')) = true := by
      simp [hpend, hkey]
    unfold dispatch_key
    rw [if_pos hcond]
    have hcleared : (clear_delete_confirmation s).delete_confirmation_pending
        = false := rfl
    generalize hs' : clear_delete_confirmation s = s' at hcleared
    unfold handle_key_event
    by_cases herr : s'.error_message.isSome
    · rw [if_pos herr]
      exact ⟨hcleared, rfl⟩
    · rw [if_neg herr]
      cases hv : s'.current_view with
      | help =>
        dsimp only
        refine ⟨?_, (handle_help_key_pending key s').2⟩
        rw [(handle_help_key_pending key s').1]
        exact hcleared
      | poolList =>
        dsimp only
        refine ⟨?_, (handle_main_key_pending fd fs dr now key s' hkey).2⟩
        rw [(handle_main_key_pending fd fs dr now key s' hkey).1]
        exact hcleared
      | datasetView p =>
        dsimp only
        refine ⟨?_, (handle_main_key_pending fd fs dr now key s' hkey).2⟩
        rw [(handle_main_key_pending fd fs dr now key s' hkey).1]
        exact hcleared
      | snapshotDetail p d =>
        dsimp only
        refine ⟨?_, (handle_main_key_pending fd fs dr now key s' hkey).2⟩
        rw [(handle_main_key_pending fd fs dr now key s' hkey).1]
        exact hcleared
  · intro fd fs dr now s p d hv herr hro hpend hexp hsel
    have hcond : (s.delete_confirmation_pending &&
        decide (Key.char 'd' ≠ Key.char 'd')) = false := by
      simp
    unfold dispatch_key
    rw [if_neg (by simp [hcond])]
    unfold handle_key_event
    rw [if_neg (by simp [herr])]
    rw [hv]
    dsimp only
    unfold handle_main_key
    rw [if_neg (by simp), if_neg (by simp), if_neg (by simp), if_neg (by simp),
      if_pos (by simp [hro])]
    exact handle_delete_key_one_deletion fs dr now s p d hv hpend hsel
  · intro now s hexp
    unfold ui_tick
    rw [if_pos hexp]
    rfl

/-- C4, witnessed on a concrete armed snapshot view: an Up keypress one
second after arming disarms with no deletion, a second `'d'` one second after
arming makes exactly one deletion call, and a tick three seconds after arming
disarms with no deletion. -/
theorem C4_delete_confirmation_lifecycle_witness :
    (dispatch_key (fun _ => []) (fun _ => []) (fun _ => none) 11 Key.up
      armedSnapshotView).1.delete_confirmation_pending = false ∧
    (dispatch_key (fun _ => []) (fun _ => []) (fun _ => none) 11 Key.up
      armedSnapshotView).2 = 0 ∧
    (dispatch_key (fun _ => []) (fun _ => []) (fun _ => none) 11
      (Key.char 'd') armedSnapshotView).2 = 1 ∧
    (ui_tick 13 armedSnapshotView).delete_confirmation_pending = false := by
  refine ⟨?_, ?_, ?_, ?_⟩
  · exact (C4_delete_confirmation_lifecycle.1 (fun _ => []) (fun _ => [])
      (fun _ => none) 11 Key.up armedSnapshotView (by decide) rfl (by decide)).1
  · exact (C4_delete_confirmation_lifecycle.1 (fun _ => []) (fun _ => [])
      (fun _ => none) 11 Key.up armedSnapshotView (by decide) rfl (by decide)).2
  · exact C4_delete_confirmation_lifecycle.2.1 (fun _ => []) (fun _ => [])
      (fun _ => none) 11 armedSnapshotView "tank" "tank/home" rfl rfl rfl rfl
      (by decide) (by decide)
  · exact C4_delete_confirmation_lifecycle.2.2 13 armedSnapshotView (by decide)

end ZfsViz
